import Mathlib

/-!
Shallow embedding of the vault lifecycle / lock-state manager
(`packages/services/src/Domain/Vaults/VaultService.ts`).

The service is a stateful class; we embed it as explicit state passing:
all mutable state the service owns or orchestrates (the lock map, the
KeyStore contents, the item index) forms a `VaultServiceState`, and every
public method becomes a function from that state to an `OpOut` recording
the returned value (or thrown error), the resulting state, the events
emitted, and the collaborator calls performed.

External collaborators (KeyStore, the use-case objects, the synchronizer)
are not under `src/`; where their behaviour decides a claim they are
modelled from the spec, each such definition carrying a
`Modelled from the spec:` doc comment.
-/

/-- JS `string` uuid of a vault listing or item. -/
abbrev Uuid := String

/-- A key-system identifier: the cryptographic namespace of a vault. -/
abbrev KeySystemIdentifier := String

/-- `KeySystemRootKeyStorageMode` from `@standardnotes/models`:
`Synced | Local | Ephemeral`. -/
inductive KeySystemRootKeyStorageMode where
  | Synced
  | Local
  | Ephemeral
deriving DecidableEq, Repr

/-- `KeySystemRootKeyPasswordType` from `@standardnotes/models`:
`Randomized | UserInputted`. -/
inductive KeySystemRootKeyPasswordType where
  | Randomized
  | UserInputted
deriving DecidableEq, Repr

/-- A `VaultListingInterface` item: the decrypted listing describing a vault.
`sharedVaultUuid` is the optional sharing metadata; `isSharedVaultListing()`
tests its presence. -/
structure VaultListing where
  uuid : Uuid
  systemIdentifier : KeySystemIdentifier
  name : String
  keyStorageMode : KeySystemRootKeyStorageMode
  keyPasswordType : KeySystemRootKeyPasswordType
  sharedVaultUuid : Option Uuid
deriving DecidableEq, Repr

/-- `vault.isSharedVaultListing()`: the listing carries sharing metadata. -/
def VaultListing.isSharedVaultListing (v : VaultListing) : Bool :=
  v.sharedVaultUuid.isSome

/-- A `DecryptedItemInterface`: any domain item, carrying the optional
`key_system_identifier` field that ties it to a vault. -/
structure DecryptedItem where
  uuid : Uuid
  key_system_identifier : Option KeySystemIdentifier
deriving DecidableEq, Repr

/-- JS falsiness of the optional string field `key_system_identifier`:
`undefined` and the empty string are falsy (`if (!item.key_system_identifier)`). -/
def identifierFalsy : Option KeySystemIdentifier → Bool
  | none => true
  | some s => s.isEmpty

/-- Modelled from the spec: the KeyStore collaborator "holds decrypted
root/items keys in memory".  Root keys are an in-memory association list,
newest first (the primary key is the most recently added one); items keys
are recorded by the key-system identifier they are scoped to. -/
structure KeyStore where
  rootKeys : List (KeySystemIdentifier × String)
  itemsKeys : List KeySystemIdentifier
deriving DecidableEq, Repr

/-- First root key value held for the identifier, newest first. -/
def lookupRootKey : List (KeySystemIdentifier × String) → KeySystemIdentifier →
    Option String
  | [], _ => none
  | (j, k) :: rest, id => if j = id then some k else lookupRootKey rest id

/-- Modelled from the spec: `getPrimaryRootKey(id)` presence check —
the first (most recent) root key held for the identifier, if any. -/
def KeyStore.getPrimaryKeySystemRootKey (ks : KeyStore) (id : KeySystemIdentifier) :
    Option String :=
  lookupRootKey ks.rootKeys id

/-- Modelled from the spec: `getPrimaryItemsKey(id)` presence check. -/
def KeyStore.getPrimaryKeySystemItemsKey (ks : KeyStore) (id : KeySystemIdentifier) :
    Option Unit :=
  if id ∈ ks.itemsKeys then some () else none

/-- Modelled from the spec: `intakeNonPersistentRootKey(key, mode)` — adds the
derived root key for the identifier to the in-memory store; it becomes primary. -/
def KeyStore.intakeNonPersistentKeySystemRootKey (ks : KeyStore)
    (id : KeySystemIdentifier) (key : String) : KeyStore :=
  { ks with rootKeys := (id, key) :: ks.rootKeys }

/-- Remove the first (most recent) root key entry held for `id`. -/
def removeFirstRootKey : List (KeySystemIdentifier × String) → KeySystemIdentifier →
    List (KeySystemIdentifier × String)
  | [], _ => []
  | (j, k) :: rest, id => if j == id then rest else (j, k) :: removeFirstRootKey rest id

/-- Modelled from the spec: `undoIntake(id)` — undoes the intake by removing
the most recently intaken root key for the identifier. -/
def KeyStore.undoIntakeNonPersistentKeySystemRootKey (ks : KeyStore)
    (id : KeySystemIdentifier) : KeyStore :=
  { ks with rootKeys := removeFirstRootKey ks.rootKeys id }

/-- Modelled from the spec: `clearKeysForVault(vault)` — "clears the vault's
key material from KeyStore": every root key and the items key held for the
vault's key-system identifier are dropped. -/
def KeyStore.clearMemoryOfKeysRelatedToVault (ks : KeyStore)
    (id : KeySystemIdentifier) : KeyStore :=
  { rootKeys := ks.rootKeys.filter (fun p => p.1 ≠ id)
    itemsKeys := ks.itemsKeys.filter (fun j => j ≠ id) }

/-- Modelled from the spec: `decryptErroredPayloads()` — attempts to decrypt
previously-errored payloads "to validate the key is correct".  `correct`
is the ground truth: for each identifier, the root key value that actually
decrypts that key system's payloads.  For every identifier whose primary
root key in the store is the correct one and whose items key is still
missing, decryption succeeds and the items key becomes available. -/
def KeyStore.decryptErroredPayloads (correct : KeySystemIdentifier → Option String)
    (ks : KeyStore) : KeyStore :=
  { ks with itemsKeys := ks.itemsKeys ++
      ((ks.rootKeys.map Prod.fst).dedup.filter (fun id =>
        ks.getPrimaryKeySystemRootKey id = correct id ∧ id ∉ ks.itemsKeys)) }

/-- The two values of `computeVaultLockState`. -/
inductive VaultLockState where
  | locked
  | unlocked
deriving DecidableEq, Repr

/-- `computeVaultLockState(vault)` (VaultService.ts lines 279-291): locked
when the primary root key for the vault's system identifier is absent, locked
when the primary items key is absent, unlocked otherwise. -/
def computeVaultLockState (ks : KeyStore) (vault : VaultListing) : VaultLockState :=
  match ks.getPrimaryKeySystemRootKey vault.systemIdentifier with
  | none => .locked
  | some _ =>
    match ks.getPrimaryKeySystemItemsKey vault.systemIdentifier with
    | none => .locked
    | some _ => .unlocked

/-- `this.lockMap.get(uuid)` on the JS `Map` backing the lock map. -/
def lockMapGet : List (Uuid × Bool) → Uuid → Option Bool
  | [], _ => none
  | (k', b') :: rest, k => if k' = k then some b' else lockMapGet rest k

/-- `this.lockMap.set(uuid, b)`: update in place if the key is present
(JS `Map` keeps insertion order), append otherwise. -/
def lockMapSet : List (Uuid × Bool) → Uuid → Bool → List (Uuid × Bool)
  | [], k, b => [(k, b)]
  | (k', b') :: rest, k, b =>
    if k' = k then (k, b) :: rest else (k', b') :: lockMapSet rest k b

/-- The state the service owns or orchestrates: the process-local lock map
(the only state the class owns directly), the KeyStore contents, the vault
listings held by the item index, and the decrypted items held by the index. -/
structure VaultServiceState where
  lockMap : List (Uuid × Bool)
  keyStore : KeyStore
  vaults : List VaultListing
  itemIndex : List DecryptedItem
deriving DecidableEq, Repr

/-- The lifecycle events the service emits. -/
inductive VaultServiceEvent where
  | VaultLocked (vault : VaultListing)
  | VaultUnlocked (vault : VaultListing)
  | VaultRootKeyRotated (vault : VaultListing)
deriving DecidableEq, Repr

/-- The distinct `throw new Error(...)` sites of the service, plus the
`NotFound` failure of `findSureItem`. -/
inductive VaultError where
  | addToLockedVault
  | itemNotInVault
  | removeFromLockedVault
  | sharedVaultDelete
  | rotateLockedVault
  | changeOptionsLockedVault
  | syncedCannotLock
  | randomizedPasswordUnlock
  | syncedCannotUnlock
  | itemNotFound
deriving DecidableEq, Repr

/-- Collaborator calls an operation performs, in order: `removeWorkflow`
marks entry into the `removeItemFromVault` method, the `...UC` markers mark
execution of the corresponding use case, `clearKeysCall` a KeyStore clear,
and `syncCall` a `sync.sync()`. -/
inductive CollaboratorCall where
  | removeWorkflow
  | removeItemUC
  | addItemsUC
  | deleteUC
  | rotateUC
  | changeKeyOptionsUC
  | clearKeysCall
  | syncCall
deriving DecidableEq, Repr

deriving instance DecidableEq for Except

/-- The outcome of one method call: the returned value or thrown error,
the state after the call, the events emitted and the collaborator calls
performed (in order). -/
structure OpOut (α : Type) where
  res : Except VaultError α
  state : VaultServiceState
  events : List VaultServiceEvent
  calls : List CollaboratorCall
deriving DecidableEq, Repr

/-- `getVaults()`: all vault listings sorted ascending by name
(`a.name.localeCompare(b.name)`, modelled as the string order on names;
the sort is a comparison sort, embedded as insertion sort). -/
def getVaults (st : VaultServiceState) : List VaultListing :=
  List.insertionSort (fun a b => a.name ≤ b.name) st.vaults

/-- `isVaultLocked(vault)` (lines 217-219): `lockMap.get(vault.uuid) === true`. -/
def isVaultLocked (st : VaultServiceState) (vault : VaultListing) : Bool :=
  decide (lockMapGet st.lockMap vault.uuid = some true)

/-- `getLockedvaults()` (lines 57-60): the vaults passing `isVaultLocked`. -/
def getLockedvaults (st : VaultServiceState) : List VaultListing :=
  (getVaults st).filter (fun vault => isVaultLocked st vault)

/-- Modelled from the spec: `getVault({keySystemIdentifier})` delegates to
the Get use case (not under `src/`), which "returns the listing whose
key-system identifier matches, or absent if none". -/
def getVault (st : VaultServiceState) (id : KeySystemIdentifier) :
    Option VaultListing :=
  st.vaults.find? (fun v => v.systemIdentifier == id)

/-- `isItemInVault(item)` (lines 192-194):
`item.key_system_identifier !== undefined`. -/
def isItemInVault (item : DecryptedItem) : Bool :=
  item.key_system_identifier.isSome

/-- `getItemVault(item)` (lines 196-202): `undefined` when the identifier
field is falsy, otherwise the `getVault` lookup. -/
def getItemVault (st : VaultServiceState) (item : DecryptedItem) :
    Option VaultListing :=
  if identifierFalsy item.key_system_identifier then none
  else getVault st (item.key_system_identifier.getD "")

/-- `items.findSureItem(uuid)`: the item index lookup by identifier
(fails as `NotFound` when absent; the caller surfaces that failure). -/
def findSureItem (idx : List DecryptedItem) (uuid : Uuid) : Option DecryptedItem :=
  idx.find? (fun it => it.uuid == uuid)

/-- Modelled from the spec: the Add/Remove use cases "update the item's
key-system identifier field accordingly" in the index. -/
def updateItemVaultField (idx : List DecryptedItem) (uuid : Uuid)
    (newId : Option KeySystemIdentifier) : List DecryptedItem :=
  idx.map (fun it =>
    if it.uuid == uuid then { it with key_system_identifier := newId } else it)

/-- `removeItemFromVault(item)` (lines 130-143): `NotInVaultError` when the
item has no vault, `LockedVaultError` when its vault is locked, otherwise the
Remove use case runs and the refreshed item is re-fetched by its uuid.
The leading `removeWorkflow` marker records that the method was entered. -/
def removeItemFromVault (st : VaultServiceState) (item : DecryptedItem) :
    OpOut DecryptedItem :=
  match getItemVault st item with
  | none => ⟨.error .itemNotInVault, st, [], [.removeWorkflow]⟩
  | some vault =>
    if isVaultLocked st vault then
      ⟨.error .removeFromLockedVault, st, [], [.removeWorkflow]⟩
    else
      match findSureItem (updateItemVaultField st.itemIndex item.uuid none) item.uuid with
      | none =>
        ⟨.error .itemNotFound,
          { st with itemIndex := updateItemVaultField st.itemIndex item.uuid none },
          [], [.removeWorkflow, .removeItemUC]⟩
      | some it =>
        ⟨.ok it,
          { st with itemIndex := updateItemVaultField st.itemIndex item.uuid none },
          [], [.removeWorkflow, .removeItemUC]⟩

/-- `addItemToVault(vault, item)` (lines 115-128): throws on a locked target
vault; when `getItemVault(item)` is truthy, first runs the whole
`removeItemFromVault` workflow on the item (propagating its failure);
then the Add use case re-homes the item and the refreshed item is
re-fetched by its uuid. -/
def addItemToVault (st : VaultServiceState) (vault : VaultListing)
    (item : DecryptedItem) : OpOut DecryptedItem :=
  if isVaultLocked st vault then
    ⟨.error .addToLockedVault, st, [], []⟩
  else if (getItemVault st item).isSome then
    match removeItemFromVault st item with
    | ⟨.error e, st1, evs, cs⟩ => ⟨.error e, st1, evs, cs⟩
    | ⟨.ok _, st1, evs, cs⟩ =>
      match findSureItem
          (updateItemVaultField st1.itemIndex item.uuid (some vault.systemIdentifier))
          item.uuid with
      | none =>
        ⟨.error .itemNotFound,
          { st1 with itemIndex :=
              updateItemVaultField st1.itemIndex item.uuid (some vault.systemIdentifier) },
          evs, cs ++ [.addItemsUC]⟩
      | some it =>
        ⟨.ok it,
          { st1 with itemIndex :=
              updateItemVaultField st1.itemIndex item.uuid (some vault.systemIdentifier) },
          evs, cs ++ [.addItemsUC]⟩
  else
    match findSureItem
        (updateItemVaultField st.itemIndex item.uuid (some vault.systemIdentifier))
        item.uuid with
    | none =>
      ⟨.error .itemNotFound,
        { st with itemIndex :=
            updateItemVaultField st.itemIndex item.uuid (some vault.systemIdentifier) },
        [], [.addItemsUC]⟩
    | some it =>
      ⟨.ok it,
        { st with itemIndex :=
            updateItemVaultField st.itemIndex item.uuid (some vault.systemIdentifier) },
        [], [.addItemsUC]⟩

/-- `isClientDisplayableError` from `@standardnotes/responses`: the Delete
use case reports failure with a displayable error value (here `some` of its
message) rather than by throwing. -/
def isClientDisplayableError (e : Option String) : Bool :=
  e.isSome

/-- Modelled from the spec: the Delete use case "removes the vault's keys
from KeyStore and deletes the VaultListing item" on success. -/
def applyDeleteVaultEffect (st : VaultServiceState) (vault : VaultListing) :
    VaultServiceState :=
  { st with
    keyStore := st.keyStore.clearMemoryOfKeysRelatedToVault vault.systemIdentifier
    vaults := st.vaults.filter (fun v => v.uuid ≠ vault.uuid) }

/-- `deleteVault(vault)` (lines 145-159): throws `WrongVaultKindError` on a
shared vault listing before any collaborator call; otherwise runs the Delete
use case (`deleteOutcome` is its reported result: `some` = displayable
error), returning `false` without syncing on a displayable error and
syncing then returning `true` on success. -/
def deleteVault (deleteOutcome : Option String) (st : VaultServiceState)
    (vault : VaultListing) : OpOut Bool :=
  if vault.isSharedVaultListing then
    ⟨.error .sharedVaultDelete, st, [], []⟩
  else if isClientDisplayableError deleteOutcome then
    ⟨.ok false, st, [], [.deleteUC]⟩
  else
    ⟨.ok true, applyDeleteVaultEffect st vault, [], [.deleteUC, .syncCall]⟩

/-- Modelled from the spec: the Rotate use case "generates a fresh root key
... updates KeyStore"; `newKey` is the freshly generated root key value. -/
def applyRotateEffect (ks : KeyStore) (id : KeySystemIdentifier)
    (newKey : String) : KeyStore :=
  { ks with rootKeys := (id, newKey) :: ks.rootKeys.filter (fun p => p.1 ≠ id) }

/-- `rotateVaultRootKey(vault)` (lines 175-190): guarded by a FRESH
`computeVaultLockState` (not the cached lock map); on success runs the
Rotate use case, emits `VaultRootKeyRotated` and syncs. -/
def rotateVaultRootKey (newKey : String) (st : VaultServiceState)
    (vault : VaultListing) : OpOut Unit :=
  if computeVaultLockState st.keyStore vault = .locked then
    ⟨.error .rotateLockedVault, st, [], []⟩
  else
    ⟨.ok (), { st with keyStore := applyRotateEffect st.keyStore vault.systemIdentifier newKey },
      [.VaultRootKeyRotated vault], [.rotateUC, .syncCall]⟩

/-- `ChangeVaultOptionsDTO`: the vault plus the optional new password type
and storage mode. -/
structure ChangeVaultOptionsDTO where
  vault : VaultListing
  newPasswordType : Option KeySystemRootKeyPasswordType
  newStorageMode : Option KeySystemRootKeyStorageMode
deriving DecidableEq, Repr

/-- `changeVaultOptions(dto)` (lines 204-215): guarded by the CACHED
`isVaultLocked`; runs the ChangeKeyOptions use case (external, not under
`src/`; its KeyStore/listing effect does not decide any claim and is left
abstract), then emits `VaultRootKeyRotated` iff a new password type was
requested. -/
def changeVaultOptions (st : VaultServiceState) (dto : ChangeVaultOptionsDTO) :
    OpOut Unit :=
  if isVaultLocked st dto.vault then
    ⟨.error .changeOptionsLockedVault, st, [], []⟩
  else
    ⟨.ok (), st,
      if dto.newPasswordType.isSome then [.VaultRootKeyRotated dto.vault] else [],
      [.changeKeyOptionsUC]⟩

/-- `lockNonPersistentVault(vault)` (lines 221-230): throws on a synced
storage mode before touching anything; otherwise clears the vault's key
material, sets the lock-map entry to locked and emits `VaultLocked`. -/
def lockNonPersistentVault (st : VaultServiceState) (vault : VaultListing) :
    OpOut Unit :=
  if vault.keyStorageMode = .Synced then
    ⟨.error .syncedCannotLock, st, [], []⟩
  else
    ⟨.ok (),
      { st with
        keyStore := st.keyStore.clearMemoryOfKeysRelatedToVault vault.systemIdentifier
        lockMap := lockMapSet st.lockMap vault.uuid true },
      [.VaultLocked vault], [.clearKeysCall]⟩

/-- `unlockNonPersistentVault(vault, password)` (lines 232-259): after the
password-type and storage-mode guards, derives the candidate root key
(`derive`), intakes it, decrypts errored payloads, and recomputes the lock
state: if still locked the intake is undone and `false` returned; otherwise
the lock-map entry is set to unlocked, `VaultUnlocked` emitted, `true`
returned. -/
def unlockNonPersistentVault (correct : KeySystemIdentifier → Option String)
    (derive : String → String) (st : VaultServiceState) (vault : VaultListing)
    (password : String) : OpOut Bool :=
  if vault.keyPasswordType ≠ .UserInputted then
    ⟨.error .randomizedPasswordUnlock, st, [], []⟩
  else if vault.keyStorageMode = .Synced then
    ⟨.error .syncedCannotUnlock, st, [], []⟩
  else
    if computeVaultLockState
        (KeyStore.decryptErroredPayloads correct
          (st.keyStore.intakeNonPersistentKeySystemRootKey vault.systemIdentifier
            (derive password))) vault = .locked then
      ⟨.ok false,
        { st with keyStore := ((KeyStore.decryptErroredPayloads correct
            (st.keyStore.intakeNonPersistentKeySystemRootKey vault.systemIdentifier
              (derive password))).undoIntakeNonPersistentKeySystemRootKey
                vault.systemIdentifier) },
        [], []⟩
    else
      ⟨.ok true,
        { st with
          keyStore := (KeyStore.decryptErroredPayloads correct
            (st.keyStore.intakeNonPersistentKeySystemRootKey vault.systemIdentifier
              (derive password)))
          lockMap := (lockMapSet st.lockMap vault.uuid false) },
        [.VaultUnlocked vault], []⟩

/-- The unlock attempt with this password succeeds: after intaking the
derived key and decrypting errored payloads, the vault computes unlocked. -/
def passwordUnlocksVault (correct : KeySystemIdentifier → Option String)
    (derive : String → String) (ks : KeyStore) (vault : VaultListing)
    (password : String) : Prop :=
  computeVaultLockState
    (KeyStore.decryptErroredPayloads correct
      (ks.intakeNonPersistentKeySystemRootKey vault.systemIdentifier (derive password)))
    vault = .unlocked

/-- One step of `recomputeAllVaultsLockingState` (lines 261-277) for one
vault: recompute the lock state; when it differs from the cached entry,
update the cache and emit the transition event. -/
def recomputeStep (acc : VaultServiceState × List VaultServiceEvent)
    (vault : VaultListing) : VaultServiceState × List VaultServiceEvent :=
  if lockMapGet acc.1.lockMap vault.uuid ≠
      some (decide (computeVaultLockState acc.1.keyStore vault = .locked)) then
    ({ acc.1 with lockMap := (lockMapSet acc.1.lockMap vault.uuid
        (decide (computeVaultLockState acc.1.keyStore vault = .locked))) },
     acc.2 ++ [if computeVaultLockState acc.1.keyStore vault = .locked then
        .VaultLocked vault else .VaultUnlocked vault])
  else acc

/-- `recomputeAllVaultsLockingState` (lines 261-277): one pass over
`getVaults()`. -/
def recomputeAllVaultsLockingState (st : VaultServiceState) :
    VaultServiceState × List VaultServiceEvent :=
  (getVaults st).foldl recomputeStep (st, [])

theorem computeVaultLockState_locked_iff (ks : KeyStore) (v : VaultListing) :
    computeVaultLockState ks v = .locked ↔
      (ks.getPrimaryKeySystemRootKey v.systemIdentifier = none ∨
       ks.getPrimaryKeySystemItemsKey v.systemIdentifier = none) := by
  unfold computeVaultLockState
  cases h1 : ks.getPrimaryKeySystemRootKey v.systemIdentifier <;>
    cases h2 : ks.getPrimaryKeySystemItemsKey v.systemIdentifier <;> simp

theorem lockMapGet_set_self (m : List (Uuid × Bool)) (k : Uuid) (b : Bool) :
    lockMapGet (lockMapSet m k b) k = some b := by
  induction m with
  | nil => simp [lockMapSet, lockMapGet]
  | cons p rest ih =>
    obtain ⟨k', b'⟩ := p
    by_cases h : k' = k
    · subst h; simp [lockMapSet, lockMapGet]
    · simpa [lockMapSet, lockMapGet, h] using ih

theorem lockMapGet_set_other (m : List (Uuid × Bool)) (k u : Uuid) (b : Bool)
    (h : k ≠ u) : lockMapGet (lockMapSet m k b) u = lockMapGet m u := by
  induction m with
  | nil => simp [lockMapSet, lockMapGet, h]
  | cons p rest ih =>
    obtain ⟨k', b'⟩ := p
    by_cases hk : k' = k
    · subst hk; simp [lockMapSet, lockMapGet, h]
    · by_cases hu : k' = u <;> simp [lockMapSet, lockMapGet, hk, hu, ih, Ne.symm h]

theorem getPrimaryRootKey_intake_self (ks : KeyStore) (id : KeySystemIdentifier)
    (key : String) :
    (ks.intakeNonPersistentKeySystemRootKey id key).getPrimaryKeySystemRootKey id =
      some key := by
  simp [KeyStore.intakeNonPersistentKeySystemRootKey, KeyStore.getPrimaryKeySystemRootKey,
    lookupRootKey]

theorem getPrimaryRootKey_intake_other (ks : KeyStore) (id j : KeySystemIdentifier)
    (key : String) (h : j ≠ id) :
    (ks.intakeNonPersistentKeySystemRootKey id key).getPrimaryKeySystemRootKey j =
      ks.getPrimaryKeySystemRootKey j := by
  simp [KeyStore.intakeNonPersistentKeySystemRootKey, KeyStore.getPrimaryKeySystemRootKey,
    lookupRootKey, Ne.symm h]

theorem decryptErroredPayloads_rootKeys (correct : KeySystemIdentifier → Option String)
    (ks : KeyStore) :
    (KeyStore.decryptErroredPayloads correct ks).rootKeys = ks.rootKeys := rfl

theorem lookupRootKey_filter_ne (l : List (KeySystemIdentifier × String))
    (id : KeySystemIdentifier) :
    lookupRootKey (l.filter (fun p => p.1 ≠ id)) id = none := by
  induction l with
  | nil => simp [lookupRootKey]
  | cons p rest ih =>
    obtain ⟨j, k⟩ := p
    by_cases hj : j = id
    · simpa [List.filter_cons, hj] using ih
    · simpa [List.filter_cons, hj, lookupRootKey] using ih

theorem clearKeys_getPrimaryRootKey (ks : KeyStore) (id : KeySystemIdentifier) :
    (ks.clearMemoryOfKeysRelatedToVault id).getPrimaryKeySystemRootKey id = none :=
  lookupRootKey_filter_ne ks.rootKeys id

theorem clearKeys_getPrimaryItemsKey (ks : KeyStore) (id : KeySystemIdentifier) :
    (ks.clearMemoryOfKeysRelatedToVault id).getPrimaryKeySystemItemsKey id = none := by
  simp [KeyStore.clearMemoryOfKeysRelatedToVault, KeyStore.getPrimaryKeySystemItemsKey,
    List.mem_filter]

theorem removeWorkflow_mem_removeItemFromVault_calls (st : VaultServiceState)
    (item : DecryptedItem) :
    CollaboratorCall.removeWorkflow ∈ (removeItemFromVault st item).calls := by
  unfold removeItemFromVault
  split <;> [simp; skip]
  split <;> [simp; skip]
  split <;> simp

theorem removeItemFromVault_res_not_addLocked (st : VaultServiceState)
    (item : DecryptedItem) :
    (removeItemFromVault st item).res ≠ .error .addToLockedVault := by
  unfold removeItemFromVault
  split <;> [simp; skip]
  split <;> [simp; skip]
  split <;> simp

theorem recomputeStep_keyStore (a : VaultServiceState × List VaultServiceEvent)
    (v : VaultListing) : (recomputeStep a v).1.keyStore = a.1.keyStore := by
  unfold recomputeStep
  split <;> rfl

theorem recomputeStep_lockMapGet_other (a : VaultServiceState × List VaultServiceEvent)
    (v : VaultListing) (u : Uuid) (h : v.uuid ≠ u) :
    lockMapGet (recomputeStep a v).1.lockMap u = lockMapGet a.1.lockMap u := by
  unfold recomputeStep
  split
  · exact lockMapGet_set_other _ _ _ _ h
  · rfl

theorem recomputeFold_keyStore (vs : List VaultListing)
    (a : VaultServiceState × List VaultServiceEvent) :
    (vs.foldl recomputeStep a).1.keyStore = a.1.keyStore := by
  induction vs generalizing a with
  | nil => rfl
  | cons v rest ih => rw [List.foldl_cons, ih, recomputeStep_keyStore]

theorem recomputeFold_lockMapGet_other (vs : List VaultListing)
    (a : VaultServiceState × List VaultServiceEvent) (u : Uuid)
    (h : u ∉ vs.map (·.uuid)) :
    lockMapGet (vs.foldl recomputeStep a).1.lockMap u = lockMapGet a.1.lockMap u := by
  induction vs generalizing a with
  | nil => rfl
  | cons v rest ih =>
    simp only [List.map_cons, List.mem_cons, not_or] at h
    rw [List.foldl_cons, ih _ h.2, recomputeStep_lockMapGet_other _ _ _ (Ne.symm h.1)]

theorem recomputeFold_lockMapGet_mem (vs : List VaultListing)
    (a : VaultServiceState × List VaultServiceEvent)
    (hnd : (vs.map (·.uuid)).Nodup) (v : VaultListing) (hv : v ∈ vs) :
    lockMapGet (vs.foldl recomputeStep a).1.lockMap v.uuid =
      some (decide (computeVaultLockState a.1.keyStore v = .locked)) := by
  induction vs generalizing a with
  | nil => cases hv
  | cons w rest ih =>
    simp only [List.map_cons, List.nodup_cons] at hnd
    rw [List.foldl_cons]
    rcases List.mem_cons.mp hv with h | h
    · subst h
      rw [recomputeFold_lockMapGet_other rest _ _ hnd.1]
      unfold recomputeStep
      split
      · exact lockMapGet_set_self _ _ _
      · rename_i hcond
        exact not_ne_iff.mp hcond
    · rw [ih _ hnd.2 h, recomputeStep_keyStore]

theorem addItemToVault_res_addLocked_iff (st : VaultServiceState) (v : VaultListing)
    (item : DecryptedItem) :
    (addItemToVault st v item).res = .error .addToLockedVault ↔
      isVaultLocked st v = true := by
  constructor
  · intro h
    by_cases hl : isVaultLocked st v = true
    · exact hl
    · exfalso
      rw [Bool.not_eq_true] at hl
      rw [addItemToVault] at h
      simp only [hl, Bool.false_eq_true, if_false] at h
      split at h
      · split at h
        · rename_i e st1 evs1 cs1 heq
          have := removeItemFromVault_res_not_addLocked st item
          rw [heq] at this
          simp only [Except.error.injEq] at h
          exact this (by simp [h])
        · split at h <;> simp at h
      · split at h <;> simp at h
  · intro h
    simp [addItemToVault, h]

theorem changeVaultOptions_res_locked_iff (st : VaultServiceState)
    (dto : ChangeVaultOptionsDTO) :
    (changeVaultOptions st dto).res = .error .changeOptionsLockedVault ↔
      isVaultLocked st dto.vault = true := by
  unfold changeVaultOptions
  split <;> rename_i h <;> simp_all

/-- C1: `computeVaultLockState` returns `unlocked` iff both the vault's root
key and its items key are present in the KeyStore for the vault's key-system
identifier; in every other case (root key absent, or root key present but
items key absent) it returns `locked`. -/
theorem computeVaultLockState_unlocked_iff_keys_present (ks : KeyStore)
    (v : VaultListing) :
    (computeVaultLockState ks v = .unlocked ↔
      ((ks.getPrimaryKeySystemRootKey v.systemIdentifier).isSome = true ∧
       (ks.getPrimaryKeySystemItemsKey v.systemIdentifier).isSome = true)) ∧
    (computeVaultLockState ks v = .locked ↔
      ¬((ks.getPrimaryKeySystemRootKey v.systemIdentifier).isSome = true ∧
        (ks.getPrimaryKeySystemItemsKey v.systemIdentifier).isSome = true)) := by
  unfold computeVaultLockState
  cases ks.getPrimaryKeySystemRootKey v.systemIdentifier <;>
    cases ks.getPrimaryKeySystemItemsKey v.systemIdentifier <;> simp

/-- C9: a vault whose uuid has no entry in the lock map is reported unlocked
by `isVaultLocked`, and is consequently excluded from `getLockedvaults`. -/
theorem isVaultLocked_no_entry_unlocked (st : VaultServiceState) (v : VaultListing)
    (h : lockMapGet st.lockMap v.uuid = none) :
    isVaultLocked st v = false ∧ v ∉ getLockedvaults st := by
  have h1 : isVaultLocked st v = false := by simp [isVaultLocked, h]
  exact ⟨h1, by simp [getLockedvaults, List.mem_filter, h1]⟩

/-- Witness for C9 at a concrete state with an empty lock map. -/
theorem isVaultLocked_no_entry_unlocked_witness :
    isVaultLocked ⟨[], ⟨[], []⟩, [⟨"u1", "s1", "A", .Local, .UserInputted, none⟩], []⟩
        ⟨"u1", "s1", "A", .Local, .UserInputted, none⟩ = false ∧
      (⟨"u1", "s1", "A", .Local, .UserInputted, none⟩ : VaultListing) ∉
        getLockedvaults ⟨[], ⟨[], []⟩, [⟨"u1", "s1", "A", .Local, .UserInputted, none⟩], []⟩ :=
  isVaultLocked_no_entry_unlocked _ _ (by decide)

/-- C6: `lockNonPersistentVault` on a synced-storage vault fails with the
invalid-operation error leaving the whole state (lock map included)
untouched; on any other storage mode it clears the vault's key material,
sets the lock-map entry to locked and emits `VaultLocked`. -/
theorem lockNonPersistentVault_spec (st : VaultServiceState) (v : VaultListing) :
    (v.keyStorageMode = .Synced →
      lockNonPersistentVault st v = ⟨.error .syncedCannotLock, st, [], []⟩) ∧
    (v.keyStorageMode ≠ .Synced →
      (lockNonPersistentVault st v).res = .ok () ∧
      (lockNonPersistentVault st v).state.keyStore.getPrimaryKeySystemRootKey
        v.systemIdentifier = none ∧
      (lockNonPersistentVault st v).state.keyStore.getPrimaryKeySystemItemsKey
        v.systemIdentifier = none ∧
      lockMapGet (lockNonPersistentVault st v).state.lockMap v.uuid = some true ∧
      (lockNonPersistentVault st v).events = [.VaultLocked v]) := by
  constructor
  · intro h
    simp [lockNonPersistentVault, h]
  · intro h
    simp [lockNonPersistentVault, h, clearKeys_getPrimaryRootKey,
      clearKeys_getPrimaryItemsKey, lockMapGet_set_self]

/-- Witness for C6 at a concrete locally-stored vault. -/
theorem lockNonPersistentVault_spec_witness :
    (lockNonPersistentVault ⟨[("u1", false)], ⟨[("s1", "K")], ["s1"]⟩, [], []⟩
        ⟨"u1", "s1", "A", .Local, .UserInputted, none⟩).res = .ok () ∧
    (lockNonPersistentVault ⟨[("u1", false)], ⟨[("s1", "K")], ["s1"]⟩, [], []⟩
        ⟨"u1", "s1", "A", .Local, .UserInputted, none⟩).state.keyStore.getPrimaryKeySystemRootKey
      "s1" = none ∧
    (lockNonPersistentVault ⟨[("u1", false)], ⟨[("s1", "K")], ["s1"]⟩, [], []⟩
        ⟨"u1", "s1", "A", .Local, .UserInputted, none⟩).state.keyStore.getPrimaryKeySystemItemsKey
      "s1" = none ∧
    lockMapGet (lockNonPersistentVault ⟨[("u1", false)], ⟨[("s1", "K")], ["s1"]⟩, [], []⟩
        ⟨"u1", "s1", "A", .Local, .UserInputted, none⟩).state.lockMap "u1" = some true ∧
    (lockNonPersistentVault ⟨[("u1", false)], ⟨[("s1", "K")], ["s1"]⟩, [], []⟩
        ⟨"u1", "s1", "A", .Local, .UserInputted, none⟩).events =
      [.VaultLocked ⟨"u1", "s1", "A", .Local, .UserInputted, none⟩] :=
  (lockNonPersistentVault_spec _ _).2 (by decide)

/-- C7: `deleteVault` throws the wrong-vault-kind error on a shared vault
listing before any collaborator call; on a displayable Delete-use-case error
it returns `false` without syncing; on success it syncs and returns `true`. -/
theorem deleteVault_spec (outcome : Option String) (st : VaultServiceState)
    (v : VaultListing) :
    (v.isSharedVaultListing = true →
      deleteVault outcome st v = ⟨.error .sharedVaultDelete, st, [], []⟩) ∧
    (v.isSharedVaultListing = false → isClientDisplayableError outcome = true →
      (deleteVault outcome st v).res = .ok false ∧
      CollaboratorCall.syncCall ∉ (deleteVault outcome st v).calls) ∧
    (v.isSharedVaultListing = false → isClientDisplayableError outcome = false →
      (deleteVault outcome st v).res = .ok true ∧
      CollaboratorCall.syncCall ∈ (deleteVault outcome st v).calls) := by
  refine ⟨fun h => ?_, fun h1 h2 => ?_, fun h1 h2 => ?_⟩ <;>
    simp_all [deleteVault]

/-- Witness for C7: successful deletion of a concrete personal vault. -/
theorem deleteVault_spec_witness :
    (deleteVault none ⟨[], ⟨[("s1", "K")], ["s1"]⟩,
        [⟨"u1", "s1", "A", .Local, .UserInputted, none⟩], []⟩
        ⟨"u1", "s1", "A", .Local, .UserInputted, none⟩).res = .ok true ∧
    CollaboratorCall.syncCall ∈ (deleteVault none ⟨[], ⟨[("s1", "K")], ["s1"]⟩,
        [⟨"u1", "s1", "A", .Local, .UserInputted, none⟩], []⟩
        ⟨"u1", "s1", "A", .Local, .UserInputted, none⟩).calls :=
  (deleteVault_spec none _ _).2.2 (by decide) (by decide)

/-- C10: `rotateVaultRootKey` raises its locked-vault error iff the root key
or items key is absent from the KeyStore at invocation time — the outcome is
independent of the lock-map contents — whereas `addItemToVault` and
`changeVaultOptions` raise their locked-vault errors exactly according to the
cached `isVaultLocked` flag. -/
theorem rotateVaultRootKey_fresh_guard (newKey : String) (ks : KeyStore)
    (lm lm' : List (Uuid × Bool)) (vs : List VaultListing)
    (idx : List DecryptedItem) (v : VaultListing) (item : DecryptedItem)
    (dto : ChangeVaultOptionsDTO) :
    ((rotateVaultRootKey newKey ⟨lm, ks, vs, idx⟩ v).res = .error .rotateLockedVault ↔
      (ks.getPrimaryKeySystemRootKey v.systemIdentifier = none ∨
       ks.getPrimaryKeySystemItemsKey v.systemIdentifier = none)) ∧
    ((rotateVaultRootKey newKey ⟨lm, ks, vs, idx⟩ v).res =
      (rotateVaultRootKey newKey ⟨lm', ks, vs, idx⟩ v).res) ∧
    ((addItemToVault ⟨lm, ks, vs, idx⟩ v item).res = .error .addToLockedVault ↔
      isVaultLocked ⟨lm, ks, vs, idx⟩ v = true) ∧
    ((changeVaultOptions ⟨lm, ks, vs, idx⟩ dto).res = .error .changeOptionsLockedVault ↔
      isVaultLocked ⟨lm, ks, vs, idx⟩ dto.vault = true) := by
  have hrot : ∀ (m : List (Uuid × Bool)),
      ((rotateVaultRootKey newKey ⟨m, ks, vs, idx⟩ v).res = .error .rotateLockedVault ↔
        computeVaultLockState ks v = .locked) := by
    intro m
    unfold rotateVaultRootKey
    split <;> rename_i h <;> simp_all
  refine ⟨(hrot lm).trans (computeVaultLockState_locked_iff ks v), ?_, ?_, ?_⟩
  · by_cases h : computeVaultLockState ks v = .locked
    · rw [((hrot lm).mpr h), ((hrot lm').mpr h)]
    · unfold rotateVaultRootKey
      simp [h]
  · exact addItemToVault_res_addLocked_iff _ v item
  · exact changeVaultOptions_res_locked_iff _ dto

/-- C4 counterexample: a concrete unlocked vault and an item already
belonging to that same vault, for which `addItemToVault` nevertheless
invokes the remove-from-vault workflow first — the claim says no removal
happens when the item already belongs to the target vault itself. -/
theorem addItemToVault_removes_from_same_vault :
    isVaultLocked ⟨[], ⟨[("s1", "K")], ["s1"]⟩,
        [⟨"u1", "s1", "A", .Local, .UserInputted, none⟩], [⟨"it1", some "s1"⟩]⟩
      ⟨"u1", "s1", "A", .Local, .UserInputted, none⟩ = false ∧
    getItemVault ⟨[], ⟨[("s1", "K")], ["s1"]⟩,
        [⟨"u1", "s1", "A", .Local, .UserInputted, none⟩], [⟨"it1", some "s1"⟩]⟩
      ⟨"it1", some "s1"⟩ = some ⟨"u1", "s1", "A", .Local, .UserInputted, none⟩ ∧
    CollaboratorCall.removeWorkflow ∈
      (addItemToVault ⟨[], ⟨[("s1", "K")], ["s1"]⟩,
          [⟨"u1", "s1", "A", .Local, .UserInputted, none⟩], [⟨"it1", some "s1"⟩]⟩
        ⟨"u1", "s1", "A", .Local, .UserInputted, none⟩ ⟨"it1", some "s1"⟩).calls := by
  decide

/-- C4 amended: with the target vault unlocked, `addItemToVault` invokes the
remove-from-vault workflow beforehand iff the item currently belongs to ANY
vault — the target vault included — and performs no removal only when the
item belongs to no vault. -/
theorem addItemToVault_removal_iff_any_vault (st : VaultServiceState)
    (v : VaultListing) (item : DecryptedItem) (h : isVaultLocked st v = false) :
    (CollaboratorCall.removeWorkflow ∈ (addItemToVault st v item).calls) ↔
      (getItemVault st item).isSome = true := by
  by_cases hs : (getItemVault st item).isSome = true
  · simp only [hs, iff_true]
    rw [addItemToVault]
    simp only [h, Bool.false_eq_true, if_false, hs, if_true]
    have hmem := removeWorkflow_mem_removeItemFromVault_calls st item
    split
    · rename_i e st1 evs1 cs1 heq
      rw [heq] at hmem
      simpa using hmem
    · rename_i x st1 evs1 cs1 heq
      rw [heq] at hmem
      split <;> simp_all
  · rw [Bool.not_eq_true] at hs
    simp only [hs, Bool.false_eq_true, iff_false]
    rw [addItemToVault]
    simp only [h, Bool.false_eq_true, if_false, hs, if_false]
    split <;> simp

/-- Witness for C4 (amended) at a concrete unlocked vault and vault-less
item: no removal is invoked. -/
theorem addItemToVault_removal_iff_any_vault_witness :
    (CollaboratorCall.removeWorkflow ∈
        (addItemToVault ⟨[], ⟨[("s1", "K")], ["s1"]⟩,
            [⟨"u1", "s1", "A", .Local, .UserInputted, none⟩], [⟨"it2", none⟩]⟩
          ⟨"u1", "s1", "A", .Local, .UserInputted, none⟩ ⟨"it2", none⟩).calls) ↔
      (getItemVault ⟨[], ⟨[("s1", "K")], ["s1"]⟩,
          [⟨"u1", "s1", "A", .Local, .UserInputted, none⟩], [⟨"it2", none⟩]⟩
        ⟨"it2", none⟩).isSome = true :=
  addItemToVault_removal_iff_any_vault _ _ _ (by decide)

/-- C5 counterexample: (1) an item whose `key_system_identifier` is set but
matches no existing vault listing still has `isItemInVault = true`, against
the claimed iff; (2) an item with the (set, but falsy) empty-string
identifier gets `getItemVault = none` even though a vault listing with the
matching (empty) identifier exists, against the claimed "absent exactly
when no identifier or no matching vault". -/
theorem isItemInVault_counterexample :
    (isItemInVault ⟨"it1", some "sX"⟩ = true ∧
     getItemVault ⟨[], ⟨[], []⟩, [], []⟩ ⟨"it1", some "sX"⟩ = none) ∧
    (getItemVault ⟨[], ⟨[], []⟩, [⟨"u9", "", "E", .Local, .UserInputted, none⟩], []⟩
        ⟨"it2", some ""⟩ = none ∧
     (⟨"it2", some ""⟩ : DecryptedItem).key_system_identifier = some "" ∧
     (⟨"u9", "", "E", .Local, .UserInputted, none⟩ : VaultListing) ∈
       (⟨[], ⟨[], []⟩, [⟨"u9", "", "E", .Local, .UserInputted, none⟩], []⟩ :
         VaultServiceState).vaults) := by
  decide

/-- C5 amended: `isItemInVault` returns true iff the item's
`key_system_identifier` field is set, with no reference to existing vaults;
`getItemVault` returns absent exactly when the identifier field is unset or
empty (JS-falsy) or no vault listing carries a matching identifier.  Both
are pure lookups: in this embedding they take no state to a new state. -/
theorem isItemInVault_getItemVault_amended (st : VaultServiceState)
    (item : DecryptedItem) :
    (isItemInVault item = item.key_system_identifier.isSome) ∧
    (getItemVault st item = none ↔
      (identifierFalsy item.key_system_identifier = true ∨
        ∀ v ∈ st.vaults, v.systemIdentifier ≠ item.key_system_identifier.getD "")) := by
  refine ⟨rfl, ?_⟩
  by_cases hf : identifierFalsy item.key_system_identifier = true
  · simp [getItemVault, hf]
  · rw [Bool.not_eq_true] at hf
    simp [getItemVault, hf, getVault, List.find?_eq_none]

/-- C8: `removeItemFromVault` fails with the not-in-vault error when the item
has no vault (checked first), fails with the locked-vault error when its
vault is locked — both failures leaving the state untouched, emitting
nothing, and performing no collaborator call beyond entering the workflow —
and otherwise runs the Remove use case and returns the refreshed item
re-fetched from the item index by the item's uuid. -/
theorem removeItemFromVault_spec (st : VaultServiceState) (item : DecryptedItem) :
    (getItemVault st item = none →
      removeItemFromVault st item =
        ⟨.error .itemNotInVault, st, [], [.removeWorkflow]⟩) ∧
    (∀ w, getItemVault st item = some w → isVaultLocked st w = true →
      removeItemFromVault st item =
        ⟨.error .removeFromLockedVault, st, [], [.removeWorkflow]⟩) ∧
    (∀ w, getItemVault st item = some w → isVaultLocked st w = false →
      ∀ it, findSureItem (updateItemVaultField st.itemIndex item.uuid none) item.uuid =
          some it →
        (removeItemFromVault st item).res = .ok it ∧
        (removeItemFromVault st item).calls = [.removeWorkflow, .removeItemUC]) := by
  refine ⟨fun h => ?_, fun w hw hl => ?_, fun w hw hl it hit => ?_⟩
  · simp [removeItemFromVault, h]
  · simp [removeItemFromVault, hw, hl]
  · rw [removeItemFromVault]
    simp [hw, hl, hit]

/-- Witness for C8 at a concrete item with no vault. -/
theorem removeItemFromVault_spec_witness :
    removeItemFromVault ⟨[], ⟨[], []⟩, [], [⟨"it1", none⟩]⟩ ⟨"it1", none⟩ =
      ⟨.error .itemNotInVault, ⟨[], ⟨[], []⟩, [], [⟨"it1", none⟩]⟩, [],
        [.removeWorkflow]⟩ :=
  (removeItemFromVault_spec _ _).1 (by decide)

/-- C2 counterexample: with both the root key and the items key present,
after a full `recomputeAllVaultsLockingState` pass `isVaultLocked` is
`false` while the claimed conjunction `rootKeyPresent && itemsKeyPresent`
is `true` — the cached flag equals the NEGATION of the conjunction. -/
theorem recompute_cache_equals_conjunction_counterexample :
    ¬ (isVaultLocked
        (recomputeAllVaultsLockingState ⟨[], ⟨[("s1", "K")], ["s1"]⟩,
          [⟨"u1", "s1", "A", .Local, .UserInputted, none⟩], []⟩).1
        ⟨"u1", "s1", "A", .Local, .UserInputted, none⟩ =
      (((⟨[("s1", "K")], ["s1"]⟩ : KeyStore).getPrimaryKeySystemRootKey "s1").isSome &&
       ((⟨[("s1", "K")], ["s1"]⟩ : KeyStore).getPrimaryKeySystemItemsKey "s1").isSome)) := by
  decide

/-- C2 amended: immediately after any completed
`recomputeAllVaultsLockingState` pass, for every vault the pass saw (vault
uuids assumed distinct), `isVaultLocked(v)` equals the NEGATION of the
conjunction of root-key presence and items-key presence in the KeyStore for
v's key-system identifier. -/
theorem recompute_lock_cache_matches_keys (st : VaultServiceState)
    (hnd : ((getVaults st).map (·.uuid)).Nodup) (v : VaultListing)
    (hv : v ∈ getVaults st) :
    isVaultLocked (recomputeAllVaultsLockingState st).1 v =
      !((st.keyStore.getPrimaryKeySystemRootKey v.systemIdentifier).isSome &&
        (st.keyStore.getPrimaryKeySystemItemsKey v.systemIdentifier).isSome) := by
  have h := recomputeFold_lockMapGet_mem (getVaults st) (st, []) hnd v hv
  rw [isVaultLocked, recomputeAllVaultsLockingState, h]
  cases hr : st.keyStore.getPrimaryKeySystemRootKey v.systemIdentifier <;>
    cases hi : st.keyStore.getPrimaryKeySystemItemsKey v.systemIdentifier <;>
    simp [computeVaultLockState, hr, hi]

/-- Witness for C2 (amended) at a concrete one-vault state with both keys
present: the recomputed cache reports unlocked. -/
theorem recompute_lock_cache_matches_keys_witness :
    isVaultLocked
        (recomputeAllVaultsLockingState ⟨[], ⟨[("s1", "K")], ["s1"]⟩,
          [⟨"u1", "s1", "A", .Local, .UserInputted, none⟩], []⟩).1
        ⟨"u1", "s1", "A", .Local, .UserInputted, none⟩ =
      !(((⟨[("s1", "K")], ["s1"]⟩ : KeyStore).getPrimaryKeySystemRootKey "s1").isSome &&
        ((⟨[("s1", "K")], ["s1"]⟩ : KeyStore).getPrimaryKeySystemItemsKey "s1").isSome) :=
  recompute_lock_cache_matches_keys _ (by decide) _ (by decide)

theorem removeFirstRootKey_cons_self (l : List (KeySystemIdentifier × String))
    (id : KeySystemIdentifier) (k : String) :
    removeFirstRootKey ((id, k) :: l) id = l := by
  simp [removeFirstRootKey]

theorem lookupRootKey_isSome_of_mem (l : List (KeySystemIdentifier × String))
    (id : KeySystemIdentifier) (h : id ∈ l.map Prod.fst) :
    ∃ k, lookupRootKey l id = some k := by
  induction l with
  | nil => simp at h
  | cons p rest ih =>
    obtain ⟨j, k⟩ := p
    by_cases hj : j = id
    · exact ⟨k, by simp [lookupRootKey, hj]⟩
    · simp only [List.map_cons, List.mem_cons] at h
      rcases h with h | h
      · exact absurd h.symm hj
      · obtain ⟨k', hk'⟩ := ih h
        exact ⟨k', by simp [lookupRootKey, hj, hk']⟩

/-- After a failed unlock (the recomputed lock state is still `locked`),
undoing the intake restores the KeyStore exactly, provided every other key
system with its correct root key present already has its items key. -/
theorem undoIntake_decrypt_restores (correct : KeySystemIdentifier → Option String)
    (ks : KeyStore) (vault : VaultListing) (dk : String)
    (hlocked : computeVaultLockState
      (KeyStore.decryptErroredPayloads correct
        (ks.intakeNonPersistentKeySystemRootKey vault.systemIdentifier dk)) vault =
      .locked)
    (hsettled : ∀ j k, j ≠ vault.systemIdentifier →
      ks.getPrimaryKeySystemRootKey j = some k → correct j = some k →
      j ∈ ks.itemsKeys) :
    (KeyStore.decryptErroredPayloads correct
      (ks.intakeNonPersistentKeySystemRootKey vault.systemIdentifier
        dk)).undoIntakeNonPersistentKeySystemRootKey vault.systemIdentifier = ks := by
  obtain ⟨r0, i0⟩ := ks
  simp only [KeyStore.intakeNonPersistentKeySystemRootKey,
    KeyStore.decryptErroredPayloads, KeyStore.undoIntakeNonPersistentKeySystemRootKey,
    KeyStore.getPrimaryKeySystemRootKey, KeyStore.getPrimaryKeySystemItemsKey]
    at hlocked ⊢
  rw [removeFirstRootKey_cons_self]
  have hL : (((vault.systemIdentifier, dk) :: r0).map Prod.fst).dedup.filter
      (fun j0 => decide (lookupRootKey ((vault.systemIdentifier, dk) :: r0) j0 =
        correct j0 ∧ j0 ∉ i0)) = [] := by
    rw [List.filter_eq_nil_iff]
    intro j0 hid
    simp only [decide_eq_true_eq, not_and, not_not]
    intro h1
    by_contra h2
    by_cases hidq : j0 = vault.systemIdentifier
    · subst hidq
      have hroot : lookupRootKey ((vault.systemIdentifier, dk) :: r0) vault.systemIdentifier = some dk := by
        simp [lookupRootKey]
      have hmemL : vault.systemIdentifier ∈ (((vault.systemIdentifier, dk) :: r0).map Prod.fst).dedup.filter
          (fun j1 => decide (lookupRootKey ((vault.systemIdentifier, dk) :: r0) j1 = correct j1 ∧
            j1 ∉ i0)) := by
        rw [List.mem_filter]
        exact ⟨by simp [List.mem_dedup], by
          simp only [decide_eq_true_eq]
          exact ⟨h1, h2⟩⟩
      have hunlocked : computeVaultLockState
          ⟨(vault.systemIdentifier, dk) :: r0, i0 ++ (((vault.systemIdentifier, dk) :: r0).map Prod.fst).dedup.filter
            (fun j1 => decide (lookupRootKey ((vault.systemIdentifier, dk) :: r0) j1 = correct j1 ∧
              j1 ∉ i0))⟩ vault = .unlocked := by
        unfold computeVaultLockState
        simp only [KeyStore.getPrimaryKeySystemRootKey,
          KeyStore.getPrimaryKeySystemItemsKey]
        rw [hroot]
        rw [if_pos (List.mem_append.mpr (Or.inr hmemL))]
      rw [hunlocked] at hlocked
      exact absurd hlocked (by simp)
    · rw [List.mem_dedup, List.map_cons, List.mem_cons] at hid
      rcases hid with hid | hid
      · exact absurd hid hidq
      · obtain ⟨k, hk⟩ := lookupRootKey_isSome_of_mem r0 j0 hid
        rw [lookupRootKey, if_neg (fun e => hidq e.symm), hk] at h1
        exact h2 (hsettled j0 k hidq hk h1.symm)
  rw [hL, List.append_nil]

/-- C3: for a vault with user-inputted password type and non-synced storage
mode, `unlockNonPersistentVault` with a password whose derived root key
unlocks the vault returns `true` and leaves the intaken key material in
place (the derived key is the primary root key afterwards); with a password
whose derived key does not unlock the vault it returns `false` and leaves
the entire service state — KeyStore included — exactly as before the call.
The settledness hypothesis pins down the collaborator side effect of
`decryptErroredPayloads`: no OTHER key system has its correct root key
present with its items key still missing. -/
theorem unlockNonPersistentVault_spec (correct : KeySystemIdentifier → Option String)
    (derive : String → String) (st : VaultServiceState) (vault : VaultListing)
    (password : String)
    (hpt : vault.keyPasswordType = .UserInputted)
    (hsm : vault.keyStorageMode ≠ .Synced)
    (hsettled : ∀ j k, j ≠ vault.systemIdentifier →
      st.keyStore.getPrimaryKeySystemRootKey j = some k → correct j = some k →
      j ∈ st.keyStore.itemsKeys) :
    (passwordUnlocksVault correct derive st.keyStore vault password →
      (unlockNonPersistentVault correct derive st vault password).res = .ok true ∧
      (unlockNonPersistentVault correct derive st vault
          password).state.keyStore.getPrimaryKeySystemRootKey vault.systemIdentifier =
        some (derive password)) ∧
    (¬ passwordUnlocksVault correct derive st.keyStore vault password →
      (unlockNonPersistentVault correct derive st vault password).res = .ok false ∧
      (unlockNonPersistentVault correct derive st vault password).state = st) := by
  have hne : ¬(vault.keyPasswordType ≠ KeySystemRootKeyPasswordType.UserInputted) := by
    simp [hpt]
  constructor
  · intro hU
    replace hU : computeVaultLockState
        (KeyStore.decryptErroredPayloads correct
          (st.keyStore.intakeNonPersistentKeySystemRootKey vault.systemIdentifier
            (derive password))) vault = .unlocked := hU
    rw [unlockNonPersistentVault, if_neg hne, if_neg hsm, if_neg (by rw [hU]; simp)]
    refine ⟨rfl, ?_⟩
    show (KeyStore.decryptErroredPayloads correct
        (st.keyStore.intakeNonPersistentKeySystemRootKey vault.systemIdentifier
          (derive password))).getPrimaryKeySystemRootKey vault.systemIdentifier =
      some (derive password)
    rw [KeyStore.getPrimaryKeySystemRootKey, decryptErroredPayloads_rootKeys]
    exact getPrimaryRootKey_intake_self st.keyStore _ _
  · intro hNU
    replace hNU : computeVaultLockState
        (KeyStore.decryptErroredPayloads correct
          (st.keyStore.intakeNonPersistentKeySystemRootKey vault.systemIdentifier
            (derive password))) vault = .locked := by
      cases hcv : computeVaultLockState
          (KeyStore.decryptErroredPayloads correct
            (st.keyStore.intakeNonPersistentKeySystemRootKey vault.systemIdentifier
              (derive password))) vault
      · rfl
      · exact absurd hcv hNU
    rw [unlockNonPersistentVault, if_neg hne, if_neg hsm, if_pos hNU]
    refine ⟨rfl, ?_⟩
    show ({ st with keyStore := ((KeyStore.decryptErroredPayloads correct
        (st.keyStore.intakeNonPersistentKeySystemRootKey vault.systemIdentifier
          (derive password))).undoIntakeNonPersistentKeySystemRootKey
            vault.systemIdentifier) } : VaultServiceState) = st
    rw [undoIntake_decrypt_restores correct st.keyStore vault (derive password) hNU
      hsettled]

/-- Witness for C3 at a concrete vault and KeyStore: the password deriving
the correct root key succeeds, and a wrong-password call restores the
state. -/
theorem unlockNonPersistentVault_spec_witness :
    (passwordUnlocksVault (fun j => if j = "s1" then some "K" else none)
        (fun p => if p = "good" then "K" else "BAD") (⟨[], []⟩ : KeyStore)
        ⟨"u1", "s1", "A", .Local, .UserInputted, none⟩ "good" →
      (unlockNonPersistentVault (fun j => if j = "s1" then some "K" else none)
          (fun p => if p = "good" then "K" else "BAD")
          ⟨[], ⟨[], []⟩, [⟨"u1", "s1", "A", .Local, .UserInputted, none⟩], []⟩
          ⟨"u1", "s1", "A", .Local, .UserInputted, none⟩ "good").res = .ok true ∧
      (unlockNonPersistentVault (fun j => if j = "s1" then some "K" else none)
          (fun p => if p = "good" then "K" else "BAD")
          ⟨[], ⟨[], []⟩, [⟨"u1", "s1", "A", .Local, .UserInputted, none⟩], []⟩
          ⟨"u1", "s1", "A", .Local, .UserInputted, none⟩
          "good").state.keyStore.getPrimaryKeySystemRootKey "s1" =
        some ((fun p => if p = "good" then "K" else "BAD") "good")) ∧
    (¬ passwordUnlocksVault (fun j => if j = "s1" then some "K" else none)
        (fun p => if p = "good" then "K" else "BAD") (⟨[], []⟩ : KeyStore)
        ⟨"u1", "s1", "A", .Local, .UserInputted, none⟩ "good" →
      (unlockNonPersistentVault (fun j => if j = "s1" then some "K" else none)
          (fun p => if p = "good" then "K" else "BAD")
          ⟨[], ⟨[], []⟩, [⟨"u1", "s1", "A", .Local, .UserInputted, none⟩], []⟩
          ⟨"u1", "s1", "A", .Local, .UserInputted, none⟩ "good").res = .ok false ∧
      (unlockNonPersistentVault (fun j => if j = "s1" then some "K" else none)
          (fun p => if p = "good" then "K" else "BAD")
          ⟨[], ⟨[], []⟩, [⟨"u1", "s1", "A", .Local, .UserInputted, none⟩], []⟩
          ⟨"u1", "s1", "A", .Local, .UserInputted, none⟩ "good").state =
        ⟨[], ⟨[], []⟩, [⟨"u1", "s1", "A", .Local, .UserInputted, none⟩], []⟩) :=
  unlockNonPersistentVault_spec (fun j => if j = "s1" then some "K" else none)
    (fun p => if p = "good" then "K" else "BAD")
    ⟨[], ⟨[], []⟩, [⟨"u1", "s1", "A", .Local, .UserInputted, none⟩], []⟩
    ⟨"u1", "s1", "A", .Local, .UserInputted, none⟩ "good" rfl (by decide)
    (by
      intro j k hne hroot hcorrect
      simp [KeyStore.getPrimaryKeySystemRootKey, lookupRootKey] at hroot)
